import Mathlib

/-!
Shallow embedding of the vscode-llm2api repository: the OpenAI-compatible
translation layer (`src/chat-sample/src/openai-api.ts`, class `VSCodeOpenAIAPI`
and `OpenAIAPIServer`) and the HTTP gateway (`VSCodeLLMServer` in the HTTP
server module).  Impure inputs (the VS Code language-model capability, the
generated response id, the current time) are passed explicitly as parameters;
JavaScript exceptions are modelled with `Except`.
-/

/-- A chat message as in the `ChatCompletionMessage` interface.  The TypeScript
type annotates `role` with a union of three literals, but values arrive from
unvalidated JSON, so at runtime `role` is an arbitrary string. -/
structure ChatCompletionMessage where
  role : String
  content : String
deriving DecidableEq, Repr

/-- A parsed chat-completion request (`ChatCompletionRequest`): the optional
model name, the message list and the `stream` flag. -/
structure ChatCompletionRequest where
  model : Option String
  messages : List ChatCompletionMessage
  stream : Bool
deriving DecidableEq, Repr

/-- One `vscode.LanguageModelChat` handle, reduced to the two fields the code
reads: `vendor` and `family`. -/
structure LMModel where
  vendor : String
  family : String
deriving DecidableEq, Repr

/-- The composite identifier the code builds everywhere with the template
string `vendor-family` (backtick template in the source). -/
def compositeId (m : LMModel) : String := m.vendor ++ "-" ++ m.family

/-- The `usage` object of a buffered response. -/
structure Usage where
  prompt_tokens : Nat
  completion_tokens : Nat
  total_tokens : Nat
deriving DecidableEq, Repr

/-- One element of `choices` in a buffered `ChatCompletionResponse`. -/
structure Choice where
  index : Nat
  message : ChatCompletionMessage
  finish_reason : String
deriving DecidableEq, Repr

/-- A buffered `ChatCompletionResponse`. -/
structure ChatCompletionResponse where
  id : String
  object : String
  created : Nat
  model : String
  choices : List Choice
  usage : Usage
deriving DecidableEq, Repr

/-- The `delta` object of one streaming chunk: both fields optional. -/
structure StreamDelta where
  role : Option String
  content : Option String
deriving DecidableEq, Repr

/-- One element of `choices` in a streaming chunk; `finish_reason` is `null`
until the terminal chunk. -/
structure StreamChoice where
  index : Nat
  delta : StreamDelta
  finish_reason : Option String
deriving DecidableEq, Repr

/-- One streaming chunk (`ChatCompletionStreamResponse`). -/
structure ChatCompletionStreamResponse where
  id : String
  object : String
  created : Nat
  model : String
  choices : List StreamChoice
deriving DecidableEq, Repr

/-- The VS Code language-model capability as `initialize()` sees it: the
result of `vscode.lm.selectChatModels ⦃vendor: copilot⦄`, the result of the
unfiltered `vscode.lm.selectChatModels()`, and whether those calls throw. -/
structure ProviderEnv where
  copilotModels : List LMModel
  allModels : List LMModel
  discoveryFails : Bool
deriving DecidableEq, Repr

/-- The message of the error `initialize()` throws from its catch block. -/
def noModelsMessage : String :=
  "No language models available. Please ensure GitHub Copilot or other LLM extensions are installed."

/-- `VSCodeOpenAIAPI.initialize`: query copilot-vendor models first, fall back
to any vendor when that list is empty, and throw the no-models error only when
a query itself throws (the catch block). -/
def initializeModels (env : ProviderEnv) : Except String (List LMModel) :=
  if env.discoveryFails then
    .error noModelsMessage
  else if env.copilotModels.isEmpty then
    .ok env.allModels
  else
    .ok env.copilotModels

/-- `VSCodeOpenAIAPI.listModels`: composite identifiers in cache order. -/
def listModels (models : List LMModel) : List String :=
  models.map compositeId

/-- Predicate of the single `find` call inside `selectModel`: composite
identifier or bare family equals the requested name. -/
def modelNameMatches (name : String) (m : LMModel) : Bool :=
  compositeId m == name || m.family == name

/-- `VSCodeOpenAIAPI.selectModel`: `this.models[0]` when the name is absent or
falsy (the empty string), else the first model whose composite identifier or
family matches, else `this.models[0]`.  The JavaScript `this.models[0]` on an
empty array is `undefined`, modelled as `none`. -/
def selectModel (models : List LMModel) (modelName : Option String) : Option LMModel :=
  match modelName with
  | none => models.head?
  | some name =>
    if name = "" then
      models.head?
    else
      match models.find? (modelNameMatches name) with
      | some m => some m
      | none => models.head?

/-- The selection procedure as the specification words it, for comparison:
first scan the whole cache for a composite-identifier match, only then scan
for a bare-family match, and finally fall back to the first model.
Modelled from the spec, not from the source. -/
def selectModelTwoTierSpec (models : List LMModel) (modelName : Option String) : Option LMModel :=
  match modelName with
  | none => models.head?
  | some name =>
    match models.find? (fun m => compositeId m == name) with
    | some m => some m
    | none =>
      match models.find? (fun m => m.family == name) with
      | some m => some m
      | none => models.head?

/-- A provider-side chat message (`vscode.LanguageModelChatMessage`): the
provider distinguishes only user and assistant turns. -/
inductive LMChatMessage where
  | user (content : String)
  | assistant (content : String)
deriving DecidableEq, Repr

/-- `VSCodeOpenAIAPI.convertMessages`: system and user map to the provider's
user turn, assistant to the assistant turn, any other role string falls into
the switch default and also becomes a user turn. -/
def convertMessages (messages : List ChatCompletionMessage) : List LMChatMessage :=
  messages.map fun msg =>
    match msg.role with
    | "system" => .user msg.content
    | "user" => .user msg.content
    | "assistant" => .assistant msg.content
    | _ => .user msg.content

/-- JavaScript `Array.prototype.join(sep)`. -/
def joinSep (sep : String) : List String → String
  | [] => ""
  | [s] => s
  | s :: t :: rest => s ++ sep ++ joinSep sep (t :: rest)

/-- `VSCodeOpenAIAPI.estimateTokens`: join the message contents with a single
space and take the ceiling of length over four. -/
def estimateTokens (messages : List ChatCompletionMessage) : Nat :=
  ((joinSep " " (messages.map fun m => m.content)).length + 3) / 4

/-- The outcome of one `model.sendRequest` call together with the iteration of
`response.text`: either the full ordered fragment sequence, or a
`vscode.LanguageModelError` with message and code, or some other exception. -/
inductive ProviderResult where
  | ok (fragments : List String)
  | err (message : String) (code : String)
  | errOther (message : String)
deriving DecidableEq, Repr

/-- A JavaScript exception escaping the translator: an `Error` thrown with a
message, or the `TypeError` raised by calling a method on `undefined`. -/
inductive JsError where
  | thrown (message : String)
  | typeError (message : String)
deriving DecidableEq, Repr

/-- The `message` property read by the gateway's catch blocks. -/
def jsErrorMessage : JsError → String
  | .thrown m => m
  | .typeError m => m

/-- The message of the `TypeError` raised when `selectModel` returned
`undefined` and the code calls `model.sendRequest` on it. -/
def undefinedModelMessage : String := "TypeError: model is undefined"

/-- `VSCodeOpenAIAPI.createChatCompletion`: lazily re-initialize when the
cache is empty, select a model, call the provider, accumulate all fragments,
and build the buffered response; a `LanguageModelError` is re-thrown with the
translated message, any other exception is re-thrown unchanged. -/
def createChatCompletion (models : List LMModel) (env : ProviderEnv)
    (req : ChatCompletionRequest) (pr : ProviderResult)
    (id : String) (created : Nat) : Except JsError ChatCompletionResponse :=
  match (if models.isEmpty then initializeModels env else Except.ok models) with
  | .error msg => .error (.thrown msg)
  | .ok ms =>
    match selectModel ms req.model with
    | none => .error (.typeError undefinedModelMessage)
    | some mdl =>
      match pr with
      | .err m c => .error (.thrown ("Language Model Error: " ++ m ++ " (" ++ c ++ ")"))
      | .errOther m => .error (.thrown m)
      | .ok frags =>
        .ok ⟨id, "chat.completion", created, compositeId mdl,
             [⟨0, ⟨"assistant", String.join frags⟩, "stop"⟩],
             ⟨estimateTokens req.messages,
              estimateTokens [⟨"assistant", String.join frags⟩],
              estimateTokens req.messages +
                estimateTokens [⟨"assistant", String.join frags⟩]⟩⟩

/-- The first chunk yielded by the streaming generator: role only. -/
def roleChunk (id : String) (created : Nat) (model : String) : ChatCompletionStreamResponse :=
  ⟨id, "chat.completion.chunk", created, model, [⟨0, ⟨some "assistant", none⟩, none⟩]⟩

/-- One content chunk of the streaming generator, carrying one provider
fragment verbatim. -/
def contentChunk (id : String) (created : Nat) (model : String)
    (fragment : String) : ChatCompletionStreamResponse :=
  ⟨id, "chat.completion.chunk", created, model, [⟨0, ⟨none, some fragment⟩, none⟩]⟩

/-- The terminal chunk of the streaming generator: empty delta, stop. -/
def stopChunk (id : String) (created : Nat) (model : String) : ChatCompletionStreamResponse :=
  ⟨id, "chat.completion.chunk", created, model, [⟨0, ⟨none, none⟩, some "stop"⟩]⟩

/-- `VSCodeOpenAIAPI.createChatCompletionStream`: same preamble as the
buffered path, then the yielded chunk sequence — one role chunk, one content
chunk per provider fragment in order, one stop chunk — all sharing the id and
creation time fixed before the loop. -/
def createChatCompletionStream (models : List LMModel) (env : ProviderEnv)
    (req : ChatCompletionRequest) (pr : ProviderResult)
    (id : String) (created : Nat) : Except JsError (List ChatCompletionStreamResponse) :=
  match (if models.isEmpty then initializeModels env else Except.ok models) with
  | .error msg => .error (.thrown msg)
  | .ok ms =>
    match selectModel ms req.model with
    | none => .error (.typeError undefinedModelMessage)
    | some mdl =>
      match pr with
      | .err m c => .error (.thrown ("Language Model Error: " ++ m ++ " (" ++ c ++ ")"))
      | .errOther m => .error (.thrown m)
      | .ok frags =>
        .ok (roleChunk id created (compositeId mdl) ::
             (frags.map (contentChunk id created (compositeId mdl)) ++
              [stopChunk id created (compositeId mdl)]))

/-- The `delta.content` field of a chunk's first choice, as a consumer
reads it. -/
def chunkDeltaContent (c : ChatCompletionStreamResponse) : Option String :=
  c.choices.head?.bind fun ch => ch.delta.content

/-- Concatenation, in order, of every present `delta.content` of a chunk
sequence. -/
def deltaContents (chunks : List ChatCompletionStreamResponse) : String :=
  String.join (chunks.filterMap chunkDeltaContent)

/-- The `messages` field of the parsed JSON body as the gateway's validation
sees it: absent, present but not an array, or an array. -/
inductive MessagesField where
  | missing
  | nonArray
  | array (msgs : List ChatCompletionMessage)
deriving DecidableEq, Repr

/-- The gateway's validation test: `request.messages` truthy and
`Array.isArray(request.messages)`.  Every array, including the empty one, is
truthy and passes. -/
def messagesFieldValid : MessagesField → Bool
  | .array _ => true
  | .missing => false
  | .nonArray => false

/-- The request body after `JSON.parse`: either the parse threw, or it
produced an object whose relevant fields are extracted here. -/
inductive ParsedBody where
  | parseError (message : String)
  | parsed (messagesField : MessagesField) (model : Option String) (stream : Bool)
deriving DecidableEq, Repr

/-- The error envelope `sendError` serializes: `error.type` and
`error.message`. -/
structure ErrorEnvelope where
  type : String
  message : String
deriving DecidableEq, Repr

/-- Replace the first occurrence of a character in a character list. -/
def replaceFirstChar : List Char → Char → Char → List Char
  | [], _, _ => []
  | c :: cs, a, b => if c = a then b :: cs else c :: replaceFirstChar cs a b

/-- JavaScript `String.prototype.replace` with a one-character string
pattern: only the first occurrence is replaced. -/
def jsReplaceFirst (s : String) (a b : Char) : String :=
  String.mk (replaceFirstChar s.data a b)

/-- JavaScript `String.prototype.toLowerCase`, character by character (the
status phrases it is applied to are plain ASCII). -/
def jsToLower (s : String) : String :=
  String.mk (s.data.map Char.toLower)

/-- `VSCodeLLMServer.sendError`: status code plus the envelope whose type is
the status phrase lowercased with `replace` applied once to turn a space into
an underscore. -/
def sendError (statusCode : Nat) (error : String) (message : String) : Nat × ErrorEnvelope :=
  (statusCode, ⟨jsReplaceFirst (jsToLower error) ' ' '_', message⟩)

/-- What the gateway writes for one `POST /v1/chat/completions` request: a
buffered 200 JSON response, a complete 200 SSE stream, an error response, or a
stream that failed after the 200 SSE headers were already written (the
in-catch `sendError` can no longer change the status). -/
inductive GatewayOutcome where
  | ok (resp : ChatCompletionResponse)
  | sse (chunks : List ChatCompletionStreamResponse)
  | errResp (status : Nat) (envelope : ErrorEnvelope)
  | sseHeadersSentThenError (message : String)
deriving DecidableEq, Repr

/-- `VSCodeLLMServer.handleChatCompletions`: parse, validate that `messages`
is an array, run `OpenAIAPIServer.handleChatCompletions` (which always awaits
`initialize()` first and then dispatches on `stream`), and map any exception
of that whole region to `sendError 400 Bad Request` — for a stream this
happens after the 200 SSE headers were written. -/
def handleChatCompletionsRoute (body : ParsedBody) (env : ProviderEnv)
    (pr : ProviderResult) (id : String) (created : Nat) : GatewayOutcome :=
  match body with
  | .parseError m =>
    let e := sendError 400 "Bad Request" m
    .errResp e.1 e.2
  | .parsed mf mdlName stream =>
    match mf with
    | .array msgs =>
      match initializeModels env with
      | .error m =>
        let e := sendError 400 "Bad Request" m
        .errResp e.1 e.2
      | .ok ms =>
        let req : ChatCompletionRequest := ⟨mdlName, msgs, stream⟩
        if stream then
          match createChatCompletionStream ms env req pr id created with
          | .ok chunks => .sse chunks
          | .error e => .sseHeadersSentThenError (jsErrorMessage e)
        else
          match createChatCompletion ms env req pr id created with
          | .ok resp => .ok resp
          | .error e =>
            let r := sendError 400 "Bad Request" (jsErrorMessage e)
            .errResp r.1 r.2
    | .missing =>
      let e := sendError 400 "Bad Request" "messages field is required and must be an array"
      .errResp e.1 e.2
    | .nonArray =>
      let e := sendError 400 "Bad Request" "messages field is required and must be an array"
      .errResp e.1 e.2

/-- Concrete model fixture used by witnesses and counterexamples. -/
def copilotGpt : LMModel := ⟨"copilot", "gpt-4o"⟩

/-- Provider environment with one copilot model and no failures. -/
def envOne : ProviderEnv := ⟨[copilotGpt], [], false⟩

/-- Provider environment where both discovery queries return empty without
throwing. -/
def envEmpty : ProviderEnv := ⟨[], [], false⟩

theorem sendError_badRequest (m : String) :
    sendError 400 "Bad Request" m = (400, ⟨"bad_request", m⟩) := rfl

theorem selectModel_mem (models : List LMModel) (name : Option String) (h : models ≠ []) :
    ∃ m, selectModel models name = some m ∧ m ∈ models := by
  obtain ⟨a, t, rfl⟩ := List.exists_cons_of_ne_nil h
  cases name with
  | none => exact ⟨a, rfl, List.mem_cons_self a t⟩
  | some n =>
    by_cases hn : n = ""
    · exact ⟨a, by simp [selectModel, hn], List.mem_cons_self a t⟩
    · cases hfind : (a :: t).find? (modelNameMatches n) with
      | none => exact ⟨a, by simp [selectModel, hn, hfind], List.mem_cons_self a t⟩
      | some m => exact ⟨m, by simp [selectModel, hn, hfind], List.mem_of_find?_eq_some hfind⟩

theorem isEmpty_false_of_ne_nil {α : Type} {l : List α} (h : l ≠ []) : l.isEmpty = false := by
  cases l with
  | nil => exact absurd rfl h
  | cons a t => rfl

/-- C1 (amended): a provider-level failure is re-raised as the translator
error carrying the provider message and code, identically for the buffered
and streaming paths, and the Gateway surfaces it as HTTP 400 (the route's own
catch block), with the provider's message embedded in the envelope. -/
theorem c1_theorem (env : ProviderEnv) (ms : List LMModel)
    (mdlName : Option String) (msgs : List ChatCompletionMessage)
    (id : String) (created : Nat) (m c : String)
    (hinit : initializeModels env = .ok ms) (hne : ms ≠ []) :
    handleChatCompletionsRoute (.parsed (.array msgs) mdlName false) env (.err m c) id created =
      .errResp 400 ⟨"bad_request", "Language Model Error: " ++ m ++ " (" ++ c ++ ")"⟩ ∧
    createChatCompletionStream ms env ⟨mdlName, msgs, true⟩ (.err m c) id created =
      .error (.thrown ("Language Model Error: " ++ m ++ " (" ++ c ++ ")")) := by
  obtain ⟨mdl, hsel, _⟩ := selectModel_mem ms mdlName hne
  have hemp : ms.isEmpty = false := isEmpty_false_of_ne_nil hne
  constructor
  · simp only [handleChatCompletionsRoute, hinit, Bool.false_eq_true, if_false,
      createChatCompletion, hemp, hsel, jsErrorMessage, sendError_badRequest]
  · simp only [createChatCompletionStream, hemp, Bool.false_eq_true, if_false, hsel]

/-- C1 counterexample: at a concrete request whose provider call fails, the
Gateway emits status 400, not the 500 response the claim requires. -/
theorem c1_counterexample :
    handleChatCompletionsRoute (.parsed (.array [⟨"user", "Hello"⟩]) none false) envOne
        (.err "quota exceeded" "Blocked") "chatcmpl-1" 100 =
      .errResp 400 ⟨"bad_request", "Language Model Error: quota exceeded (Blocked)"⟩ ∧
    (GatewayOutcome.errResp 400 ⟨"bad_request", "Language Model Error: quota exceeded (Blocked)"⟩ ≠
      GatewayOutcome.errResp 500 ⟨"internal_server_error", "Language Model Error: quota exceeded (Blocked)"⟩) :=
  ⟨rfl, by decide⟩

/-- Witness for c1_theorem at a concrete environment and request. -/
theorem c1_witness :
    initializeModels envOne = .ok [copilotGpt] ∧ ([copilotGpt] ≠ ([] : List LMModel)) ∧
    (handleChatCompletionsRoute (.parsed (.array [⟨"user", "Hello"⟩]) none false) envOne
        (.err "q" "B") "i" 1 =
      .errResp 400 ⟨"bad_request", "Language Model Error: " ++ "q" ++ " (" ++ "B" ++ ")"⟩ ∧
    createChatCompletionStream [copilotGpt] envOne ⟨none, [⟨"user", "Hello"⟩], true⟩
        (.err "q" "B") "i" 1 =
      .error (.thrown ("Language Model Error: " ++ "q" ++ " (" ++ "B" ++ ")"))) :=
  ⟨rfl, by decide, c1_theorem envOne [copilotGpt] none [⟨"user", "Hello"⟩] "i" 1 "q" "B" rfl (by decide)⟩

/-- C2 (amended): initialize fails with the no-models error exactly when a
discovery query throws; when the queries return normally it caches the
copilot result if non-empty, else the unfiltered result — in particular two
empty query results yield a successful initialize with an empty cache. -/
theorem c2_theorem (env : ProviderEnv) :
    (env.discoveryFails = true → initializeModels env = .error noModelsMessage) ∧
    (env.discoveryFails = false →
      initializeModels env =
        .ok (if env.copilotModels.isEmpty then env.allModels else env.copilotModels)) ∧
    (env.discoveryFails = false → env.copilotModels = [] → env.allModels = [] →
      initializeModels env = .ok []) := by
  refine ⟨fun h => ?_, fun h => ?_, fun h h1 h2 => ?_⟩
  · simp [initializeModels, h]
  · simp only [initializeModels, h, Bool.false_eq_true, if_false]
    split <;> rfl
  · simp [initializeModels, h, h1, h2]

/-- C2 counterexample: with both discovery queries returning empty and not
throwing, initialize completes successfully with an empty cached list, which
the claim rules out. -/
theorem c2_counterexample : initializeModels envEmpty = .ok [] := rfl

/-- Witness for c2_theorem at the all-empty environment. -/
theorem c2_witness :
    envEmpty.discoveryFails = false ∧ envEmpty.copilotModels = [] ∧
    envEmpty.allModels = [] ∧ initializeModels envEmpty = .ok [] :=
  ⟨rfl, rfl, rfl, (c2_theorem envEmpty).2.2 rfl rfl rfl⟩

/-- C3 (amended): a missing or non-sequence `messages` field yields HTTP 400
with `error.type` equal to bad_request, for every provider behaviour (so the
Completion Translator is never consulted); an empty `messages` array, by
contrast, passes the validation — the claim's empty-list case is wrong. -/
theorem c3_theorem (mdlName : Option String) (stream : Bool) (env : ProviderEnv)
    (pr : ProviderResult) (id : String) (created : Nat) (mf : MessagesField)
    (h : mf = .missing ∨ mf = .nonArray) :
    handleChatCompletionsRoute (.parsed mf mdlName stream) env pr id created =
      .errResp 400 ⟨"bad_request", "messages field is required and must be an array"⟩ ∧
    messagesFieldValid (.array []) = true := by
  rcases h with h | h <;> subst h <;>
    exact ⟨by simp only [handleChatCompletionsRoute, sendError_badRequest], rfl⟩

/-- C3 counterexample: a body whose `messages` is the empty array is not
rejected with 400; validation passes and the translator runs, producing a
200 response built from the provider output. -/
theorem c3_counterexample :
    handleChatCompletionsRoute (.parsed (.array []) none false) envOne (.ok ["Hi"]) "chatcmpl-1" 100 =
      .ok ⟨"chatcmpl-1", "chat.completion", 100, "copilot-gpt-4o",
           [⟨0, ⟨"assistant", "Hi"⟩, "stop"⟩], ⟨0, 1, 1⟩⟩ := rfl

/-- Witness for c3_theorem at the missing-field case. -/
theorem c3_witness :
    (MessagesField.missing = MessagesField.missing ∨ MessagesField.missing = MessagesField.nonArray) ∧
    (handleChatCompletionsRoute (.parsed .missing none false) envOne (.ok []) "i" 1 =
      .errResp 400 ⟨"bad_request", "messages field is required and must be an array"⟩ ∧
    messagesFieldValid (.array []) = true) :=
  ⟨Or.inl rfl, c3_theorem none false envOne (.ok []) "i" 1 .missing (Or.inl rfl)⟩

/-- Two-model fixture whose first element matches the name x-y by family and
whose second matches it by composite identifier. -/
def modelsAB : List LMModel := [⟨"a", "x-y"⟩, ⟨"x", "y"⟩]

/-- C4 (amended): with a non-empty cache and a present non-empty name,
selectModel returns the first model, in cache order, whose composite
identifier OR bare family label equals the name — one scan with a disjunctive
test, not a composite-first priority scan — and when no model matches either
label, or the name is absent, it returns the first cached model; it always
returns a cached model and never raises. -/
theorem c4_theorem (models : List LMModel) (name : String)
    (hne : models ≠ []) (hn : name ≠ "") :
    (∃ m, selectModel models (some name) = some m ∧ m ∈ models) ∧
    (∀ m, models.find? (modelNameMatches name) = some m →
      selectModel models (some name) = some m) ∧
    (models.find? (modelNameMatches name) = none →
      selectModel models (some name) = models.head?) ∧
    selectModel models none = models.head? := by
  refine ⟨selectModel_mem models (some name) hne, fun m hf => ?_, fun hf => ?_, rfl⟩
  · simp [selectModel, hn, hf]
  · simp [selectModel, hn, hf]

/-- C4 counterexample: for the name x-y, the first model matches by bare
family while only the second matches by composite identifier; the code
returns the first, whereas the claim's composite-first priority demands the
second. -/
theorem c4_counterexample :
    selectModel modelsAB (some "x-y") = some ⟨"a", "x-y"⟩ ∧
    selectModelTwoTierSpec modelsAB (some "x-y") = some ⟨"x", "y"⟩ ∧
    compositeId ⟨"x", "y"⟩ = "x-y" ∧ compositeId ⟨"a", "x-y"⟩ ≠ "x-y" ∧
    (⟨"a", "x-y"⟩ : LMModel) ≠ ⟨"x", "y"⟩ :=
  ⟨rfl, rfl, rfl, by decide, by decide⟩

/-- Witness for c4_theorem at a name matching no model. -/
theorem c4_witness :
    modelsAB ≠ [] ∧ ("zzz" : String) ≠ "" ∧
    ((∃ m, selectModel modelsAB (some "zzz") = some m ∧ m ∈ modelsAB) ∧
     (∀ m, modelsAB.find? (modelNameMatches "zzz") = some m →
       selectModel modelsAB (some "zzz") = some m) ∧
     (modelsAB.find? (modelNameMatches "zzz") = none →
       selectModel modelsAB (some "zzz") = modelsAB.head?) ∧
     selectModel modelsAB none = modelsAB.head?) :=
  ⟨by decide, by decide, c4_theorem modelsAB "zzz" (by decide) (by decide)⟩

theorem joinSep_space_length (l : List String) (h : l ≠ []) :
    (joinSep " " l).length = (l.map String.length).sum + (l.length - 1) := by
  induction l with
  | nil => exact absurd rfl h
  | cons s t ih =>
    cases t with
    | nil => simp [joinSep]
    | cons u r =>
      have ht : u :: r ≠ [] := by simp
      simp only [joinSep, String.length_append, ih ht, List.map_cons, List.sum_cons,
        List.length_cons]
      have hsp : (" " : String).length = 1 := rfl
      omega

/-- C5 (amended): for every successful buffered completion over a non-empty
message list, prompt_tokens is the ceiling over four of the contents joined
with one space per gap (sum of lengths plus message count minus one), not of
their plain concatenation; completion_tokens is the ceiling over four of the
generated content's length; total_tokens is their sum. -/
theorem c5_theorem (models : List LMModel) (env : ProviderEnv)
    (req : ChatCompletionRequest) (frags : List String) (id : String) (created : Nat)
    (resp : ChatCompletionResponse)
    (hb : createChatCompletion models env req (.ok frags) id created = .ok resp)
    (hne : req.messages ≠ []) :
    resp.usage.prompt_tokens =
      (((req.messages.map fun msg => msg.content.length).sum + (req.messages.length - 1)) + 3) / 4 ∧
    resp.usage.completion_tokens = ((String.join frags).length + 3) / 4 ∧
    resp.usage.total_tokens = resp.usage.prompt_tokens + resp.usage.completion_tokens := by
  unfold createChatCompletion at hb
  split at hb
  · exact absurd hb (by simp)
  · split at hb
    · exact absurd hb (by simp)
    · injection hb with hb
      subst hb
      refine ⟨?_, rfl, rfl⟩
      show estimateTokens req.messages = _
      unfold estimateTokens
      have hmapne : req.messages.map (fun m => m.content) ≠ [] := by
        simpa using hne
      rw [joinSep_space_length _ hmapne]
      simp [List.map_map, Function.comp_def]

/-- C5 counterexample: with the two contents ab and cd the code computes the
estimate over the five-character space-joined text (2 tokens), while the
claim's plain concatenation has four characters and yields 1. -/
theorem c5_counterexample :
    createChatCompletion [copilotGpt] envOne ⟨none, [⟨"user", "ab"⟩, ⟨"user", "cd"⟩], false⟩
        (.ok []) "i" 0 =
      .ok ⟨"i", "chat.completion", 0, "copilot-gpt-4o",
           [⟨0, ⟨"assistant", ""⟩, "stop"⟩], ⟨2, 0, 2⟩⟩ ∧
    (("ab" ++ "cd").length + 3) / 4 = 1 ∧ (2 : Nat) ≠ 1 :=
  ⟨rfl, rfl, by decide⟩

/-- Witness for c5_theorem at the specification's own example request. -/
theorem c5_witness :
    (createChatCompletion [copilotGpt] envOne ⟨none, [⟨"user", "Hello!"⟩], false⟩
        (.ok ["Hi ", "there!"]) "i" 7 =
      .ok ⟨"i", "chat.completion", 7, "copilot-gpt-4o",
           [⟨0, ⟨"assistant", "Hi there!"⟩, "stop"⟩], ⟨2, 3, 5⟩⟩) ∧
    ([⟨"user", "Hello!"⟩] : List ChatCompletionMessage) ≠ [] ∧
    ((2 : Nat) =
        ((([⟨"user", "Hello!"⟩] : List ChatCompletionMessage).map fun msg => msg.content.length).sum +
          (([⟨"user", "Hello!"⟩] : List ChatCompletionMessage).length - 1) + 3) / 4 ∧
      (3 : Nat) = ((String.join ["Hi ", "there!"]).length + 3) / 4 ∧
      (5 : Nat) = 2 + 3) :=
  ⟨rfl, by decide,
   c5_theorem [copilotGpt] envOne ⟨none, [⟨"user", "Hello!"⟩], false⟩ ["Hi ", "there!"] "i" 7
     ⟨"i", "chat.completion", 7, "copilot-gpt-4o",
      [⟨0, ⟨"assistant", "Hi there!"⟩, "stop"⟩], ⟨2, 3, 5⟩⟩ rfl (by decide)⟩

/-- C6 (amended): the gateway's error bodies have shape error.type and
error.message, the type being the status phrase lowercased with only the
FIRST space replaced by an underscore: 400 gives bad_request and 404 gives
not_found as claimed, but 500 gives the string internal_server error, whose
second space survives. -/
theorem c6_theorem (m : String) :
    sendError 400 "Bad Request" m = (400, ⟨"bad_request", m⟩) ∧
    sendError 404 "Not Found" m = (404, ⟨"not_found", m⟩) ∧
    sendError 500 "Internal Server Error" m = (500, ⟨"internal_server error", m⟩) :=
  ⟨rfl, rfl, rfl⟩

/-- C6 counterexample: the 500 envelope's type is internal_server followed by
a space, not the underscore form the claim states. -/
theorem c6_counterexample :
    sendError 500 "Internal Server Error" "boom" = (500, ⟨"internal_server error", "boom"⟩) ∧
    ("internal_server error" : String) ≠ "internal_server_error" :=
  ⟨rfl, by decide⟩

theorem filterMap_contentChunks (id : String) (created : Nat) (mdl : String)
    (frags : List String) :
    List.filterMap chunkDeltaContent
      (frags.map (contentChunk id created mdl) ++ [stopChunk id created mdl]) = frags := by
  induction frags with
  | nil => rfl
  | cons a t ih =>
    show a :: List.filterMap chunkDeltaContent
        (t.map (contentChunk id created mdl) ++ [stopChunk id created mdl]) = a :: t
    rw [ih]

theorem deltaContents_chunks (id : String) (created : Nat) (mdl : String)
    (frags : List String) :
    deltaContents (roleChunk id created mdl ::
      (frags.map (contentChunk id created mdl) ++ [stopChunk id created mdl])) =
      String.join frags := by
  show String.join (List.filterMap chunkDeltaContent
      (frags.map (contentChunk id created mdl) ++ [stopChunk id created mdl])) =
    String.join frags
  rw [filterMap_contentChunks]

/-- C7: for one request and one fixed provider fragment sequence, the
buffered response's single choice content equals the concatenation, in order,
of all delta.content fields of the chunks the streaming path produces. -/
theorem c7_theorem (models : List LMModel) (env : ProviderEnv)
    (req : ChatCompletionRequest) (frags : List String)
    (id1 : String) (created1 : Nat) (id2 : String) (created2 : Nat)
    (resp : ChatCompletionResponse) (chunks : List ChatCompletionStreamResponse)
    (hb : createChatCompletion models env req (.ok frags) id1 created1 = .ok resp)
    (hs : createChatCompletionStream models env req (.ok frags) id2 created2 = .ok chunks) :
    resp.choices.map (fun ch => ch.message.content) = [deltaContents chunks] := by
  unfold createChatCompletion at hb
  unfold createChatCompletionStream at hs
  split at hb
  · exact absurd hb (by simp)
  · rename_i ms hI
    simp only [hI] at hs
    split at hb
    · exact absurd hb (by simp)
    · rename_i mdl hsel
      simp only [hsel] at hs
      injection hb with hb
      injection hs with hs
      subst hb
      subst hs
      simp [deltaContents_chunks]

/-- Witness for c7_theorem at the specification's example fragments. -/
theorem c7_witness :
    (createChatCompletion [copilotGpt] envOne ⟨none, [⟨"user", "Hello!"⟩], false⟩
        (.ok ["Hi ", "there!"]) "a" 7 =
      .ok ⟨"a", "chat.completion", 7, "copilot-gpt-4o",
           [⟨0, ⟨"assistant", "Hi there!"⟩, "stop"⟩], ⟨2, 3, 5⟩⟩) ∧
    (createChatCompletionStream [copilotGpt] envOne ⟨none, [⟨"user", "Hello!"⟩], false⟩
        (.ok ["Hi ", "there!"]) "b" 8 =
      .ok (roleChunk "b" 8 "copilot-gpt-4o" ::
           (["Hi ", "there!"].map (contentChunk "b" 8 "copilot-gpt-4o") ++
            [stopChunk "b" 8 "copilot-gpt-4o"]))) ∧
    ((⟨"a", "chat.completion", 7, "copilot-gpt-4o",
        [⟨0, ⟨"assistant", "Hi there!"⟩, "stop"⟩], ⟨2, 3, 5⟩⟩ :
          ChatCompletionResponse).choices.map (fun ch => ch.message.content) =
      [deltaContents (roleChunk "b" 8 "copilot-gpt-4o" ::
        (["Hi ", "there!"].map (contentChunk "b" 8 "copilot-gpt-4o") ++
         [stopChunk "b" 8 "copilot-gpt-4o"]))]) :=
  ⟨rfl, rfl,
   c7_theorem [copilotGpt] envOne ⟨none, [⟨"user", "Hello!"⟩], false⟩ ["Hi ", "there!"]
     "a" 7 "b" 8
     ⟨"a", "chat.completion", 7, "copilot-gpt-4o",
      [⟨0, ⟨"assistant", "Hi there!"⟩, "stop"⟩], ⟨2, 3, 5⟩⟩
     (roleChunk "b" 8 "copilot-gpt-4o" ::
      (["Hi ", "there!"].map (contentChunk "b" 8 "copilot-gpt-4o") ++
       [stopChunk "b" 8 "copilot-gpt-4o"]))
     rfl rfl⟩

/-- C8: every successful streaming completion over a fragment sequence
yields, in strict order, exactly one role-only chunk with null finish_reason,
then exactly one chunk per fragment carrying it verbatim with null
finish_reason, then exactly one terminal chunk with empty delta and
finish_reason stop; and every chunk carries the response's id and created. -/
theorem c8_theorem (models : List LMModel) (env : ProviderEnv)
    (req : ChatCompletionRequest) (frags : List String) (id : String) (created : Nat)
    (chunks : List ChatCompletionStreamResponse)
    (hs : createChatCompletionStream models env req (.ok frags) id created = .ok chunks) :
    ∃ mdl : String,
      chunks.head? = some (roleChunk id created mdl) ∧
      (chunks.drop 1).dropLast = frags.map (contentChunk id created mdl) ∧
      chunks.getLast? = some (stopChunk id created mdl) ∧
      chunks.length = frags.length + 2 ∧
      ∀ ch ∈ chunks, ch.id = id ∧ ch.created = created := by
  unfold createChatCompletionStream at hs
  split at hs
  · exact absurd hs (by simp)
  · split at hs
    · exact absurd hs (by simp)
    · rename_i mdl hsel
      injection hs with hs
      subst hs
      refine ⟨compositeId mdl, rfl, ?_, ?_, ?_, ?_⟩
      · show (frags.map (contentChunk id created (compositeId mdl)) ++
            [stopChunk id created (compositeId mdl)]).dropLast =
          frags.map (contentChunk id created (compositeId mdl))
        simp
      · rw [← List.cons_append]
        exact List.getLast?_concat _
      · simp
      · intro ch hch
        rcases List.mem_cons.1 hch with rfl | hch2
        · exact ⟨rfl, rfl⟩
        · rcases List.mem_append.1 hch2 with hm | hstop
          · obtain ⟨f, hf, rfl⟩ := List.mem_map.1 hm
            exact ⟨rfl, rfl⟩
          · rcases List.mem_singleton.1 hstop with rfl
            exact ⟨rfl, rfl⟩

/-- Witness for c8_theorem at a two-fragment stream. -/
theorem c8_witness :
    (createChatCompletionStream [copilotGpt] envOne ⟨none, [⟨"user", "Hello!"⟩], true⟩
        (.ok ["Hi ", "there!"]) "c" 9 =
      .ok (roleChunk "c" 9 "copilot-gpt-4o" ::
           (["Hi ", "there!"].map (contentChunk "c" 9 "copilot-gpt-4o") ++
            [stopChunk "c" 9 "copilot-gpt-4o"]))) ∧
    (∃ mdl : String,
      (roleChunk "c" 9 "copilot-gpt-4o" ::
        (["Hi ", "there!"].map (contentChunk "c" 9 "copilot-gpt-4o") ++
         [stopChunk "c" 9 "copilot-gpt-4o"])).head? = some (roleChunk "c" 9 mdl) ∧
      ((roleChunk "c" 9 "copilot-gpt-4o" ::
        (["Hi ", "there!"].map (contentChunk "c" 9 "copilot-gpt-4o") ++
         [stopChunk "c" 9 "copilot-gpt-4o"])).drop 1).dropLast =
        ["Hi ", "there!"].map (contentChunk "c" 9 mdl) ∧
      (roleChunk "c" 9 "copilot-gpt-4o" ::
        (["Hi ", "there!"].map (contentChunk "c" 9 "copilot-gpt-4o") ++
         [stopChunk "c" 9 "copilot-gpt-4o"])).getLast? = some (stopChunk "c" 9 mdl) ∧
      (roleChunk "c" 9 "copilot-gpt-4o" ::
        (["Hi ", "there!"].map (contentChunk "c" 9 "copilot-gpt-4o") ++
         [stopChunk "c" 9 "copilot-gpt-4o"])).length = (["Hi ", "there!"] : List String).length + 2 ∧
      ∀ ch ∈ (roleChunk "c" 9 "copilot-gpt-4o" ::
        (["Hi ", "there!"].map (contentChunk "c" 9 "copilot-gpt-4o") ++
         [stopChunk "c" 9 "copilot-gpt-4o"])), ch.id = "c" ∧ ch.created = 9) :=
  ⟨rfl, c8_theorem [copilotGpt] envOne ⟨none, [⟨"user", "Hello!"⟩], true⟩ ["Hi ", "there!"]
     "c" 9 _ rfl⟩

/-- C9: message conversion preserves the length and order of the sequence and
each message's content, sending system and user roles to the provider's user
turn and the assistant role to the assistant turn. -/
theorem c9_theorem (msgs : List ChatCompletionMessage) :
    (convertMessages msgs).length = msgs.length ∧
    ∀ (i : Nat) (msg : ChatCompletionMessage), msgs[i]? = some msg →
      ((msg.role = "system" ∨ msg.role = "user") →
        (convertMessages msgs)[i]? = some (.user msg.content)) ∧
      (msg.role = "assistant" →
        (convertMessages msgs)[i]? = some (.assistant msg.content)) := by
  refine ⟨by simp [convertMessages], fun i msg hmsg => ⟨fun hrole => ?_, fun hrole => ?_⟩⟩
  · rcases hrole with h | h <;>
      simp [convertMessages, List.getElem?_map, hmsg, h]
  · simp [convertMessages, List.getElem?_map, hmsg, hrole]

/-- A two-message conversation: one system message, one assistant message. -/
def sysAsstMsgs : List ChatCompletionMessage := [⟨"system", "a"⟩, ⟨"assistant", "b"⟩]

/-- Witness for c9_theorem on a two-message conversation. -/
theorem c9_witness :
    (convertMessages sysAsstMsgs)[0]? = some (.user "a") ∧
    (convertMessages sysAsstMsgs)[1]? = some (.assistant "b") :=
  ⟨((c9_theorem sysAsstMsgs).2 0 ⟨"system", "a"⟩ rfl).1 (Or.inl rfl),
   ((c9_theorem sysAsstMsgs).2 1 ⟨"assistant", "b"⟩ rfl).2 rfl⟩

/-- C10: with an empty cached model list — a reachable state, since
initialize can succeed returning an empty cache — selectModel returns no
model (undefined) for every present or absent name instead of raising, and
createChatCompletion proceeds to the provider invocation unguarded: for every
request and every provider behaviour it fails with the TypeError of invoking
a method on undefined, not with any guarded validation error. -/
theorem c10_theorem (name : Option String) (env : ProviderEnv)
    (req : ChatCompletionRequest) (pr : ProviderResult) (id : String) (created : Nat)
    (hinit : initializeModels env = .ok []) :
    selectModel [] name = none ∧
    createChatCompletion [] env req pr id created = .error (.typeError undefinedModelMessage) := by
  have hsel : ∀ nm : Option String, selectModel [] nm = none := by
    intro nm
    cases nm with
    | none => rfl
    | some n => by_cases hn : n = "" <;> simp [selectModel, hn]
  refine ⟨hsel name, ?_⟩
  unfold createChatCompletion
  simp only [List.isEmpty_nil, if_true, hinit, hsel]

/-- Witness for c10_theorem at the all-empty provider environment. -/
theorem c10_witness :
    initializeModels envEmpty = .ok [] ∧
    (selectModel [] (some "copilot-gpt-4o") = none ∧
     createChatCompletion [] envEmpty ⟨some "copilot-gpt-4o", [⟨"user", "Hi"⟩], false⟩
       (.ok ["x"]) "i" 1 = .error (.typeError undefinedModelMessage)) :=
  ⟨rfl, c10_theorem (some "copilot-gpt-4o") envEmpty
     ⟨some "copilot-gpt-4o", [⟨"user", "Hi"⟩], false⟩ (.ok ["x"]) "i" 1 rfl⟩
